import Mathlib

/-!
# stsh: job-control builtins, child reaping, foreground wait and pipeline launch

A shallow embedding of `stsh.cc`.  The functions of `stsh.cc` are translated
one for one; the registry classes they call (`STSHJobList`, `STSHJob`,
`STSHProcess`, declared in headers that are not part of the sources at hand)
are modelled from the specification.  System calls are modelled by their
effect on explicit state: a log of the signals sent with `kill`, the blocked
signal set, the per-process table of open descriptors and the ordered list of
calls the shell makes.
-/

set_option autoImplicit false
set_option linter.dupNamespace false

namespace Stsh

/-! ## Registry data model -/

/-- Modelled from the spec: the run state of a process (`stsh-process.h` is
missing); §3 lists Running, Stopped and Terminated. -/
inductive STSHProcessState where
  | kRunning
  | kStopped
  | kTerminated
  deriving DecidableEq, Repr

/-- Modelled from the spec: the placement of a job (`stsh-job.h` is missing). -/
inductive STSHJobState where
  | kForeground
  | kBackground
  deriving DecidableEq, Repr

/-- Modelled from the spec: one kernel process of a pipeline (`stsh-process.h`
is missing): identifier, display command text, run state. -/
structure STSHProcess where
  pid : Int
  command : String
  state : STSHProcessState
  deriving DecidableEq, Repr

/-- Modelled from the spec: one pipeline invocation (`stsh-job.h` is missing):
handle, process-group identifier, placement, processes in stage order. -/
structure STSHJob where
  num : Nat
  groupID : Int
  state : STSHJobState
  processes : List STSHProcess
  deriving DecidableEq, Repr

/-- Modelled from the spec: the job registry (`stsh-job-list.h` is missing), the
table of active jobs keyed by handle. -/
structure STSHJobList where
  jobs : List STSHJob
  deriving DecidableEq, Repr

/-- Modelled from the spec: `STSHJob::containsProcess(pid)`, existence query. -/
def STSHJob.containsProcess (job : STSHJob) (pid : Int) : Bool :=
  job.processes.any (fun q => q.pid == pid)

/-- Modelled from the spec: `STSHJob::getProcess(pid)`; `none` stands for the
precondition violation when the process is absent. -/
def STSHJob.getProcess (job : STSHJob) (pid : Int) : Option STSHProcess :=
  job.processes.find? (fun q => q.pid == pid)

/-- Modelled from the spec: `STSHJobList::containsJob(handle)`. -/
def STSHJobList.containsJob (jl : STSHJobList) (num : Nat) : Bool :=
  jl.jobs.any (fun j => j.num == num)

/-- Modelled from the spec: `STSHJobList::getJob(handle)`; `none` stands for the
precondition violation when the job is absent. -/
def STSHJobList.getJob (jl : STSHJobList) (num : Nat) : Option STSHJob :=
  jl.jobs.find? (fun j => j.num == num)

/-- Modelled from the spec: `STSHJobList::containsProcess(pid)`. -/
def STSHJobList.containsProcess (jl : STSHJobList) (pid : Int) : Bool :=
  jl.jobs.any (fun j => j.containsProcess pid)

/-- Modelled from the spec: `STSHJobList::getJobWithProcess(pid)`, the reverse
lookup from process identifier to owning job. -/
def STSHJobList.getJobWithProcess (jl : STSHJobList) (pid : Int) : Option STSHJob :=
  jl.jobs.find? (fun j => j.containsProcess pid)

/-- Modelled from the spec: `STSHJobList::hasForegroundJob()`. -/
def STSHJobList.hasForegroundJob (jl : STSHJobList) : Bool :=
  jl.jobs.any (fun j => j.state == STSHJobState.kForeground)

/-- Modelled from the spec: `STSHJobList::getForegroundJob()`. -/
def STSHJobList.getForegroundJob (jl : STSHJobList) : Option STSHJob :=
  jl.jobs.find? (fun j => j.state == STSHJobState.kForeground)

/-- Modelled from the spec: the smallest unused positive handle (§3). -/
def STSHJobList.nextHandle (jl : STSHJobList) : Nat :=
  (((List.range (jl.jobs.length + 1)).map (fun n => n + 1)).find?
    (fun n => !jl.containsJob n)).getD (jl.jobs.length + 1)

/-- Modelled from the spec: `STSHJobList::addJob(placement)` allocates the next
free handle and a fresh process group (`gid`, chosen by the caller of the
model), stores an empty job and hands back its handle. -/
def STSHJobList.addJob (jl : STSHJobList) (st : STSHJobState) (gid : Int) :
    STSHJobList × Nat :=
  (⟨jl.jobs ++ [⟨jl.nextHandle, gid, st, []⟩]⟩, jl.nextHandle)

/-- Modelled from the spec: `STSHJob::addProcess`, performed through the
reference `createJob` holds: the process is appended to the job with the
given handle. -/
def STSHJobList.addProcess (jl : STSHJobList) (num : Nat) (q : STSHProcess) :
    STSHJobList :=
  ⟨jl.jobs.map (fun j => if j.num == num then
      { j with processes := j.processes ++ [q] } else j)⟩

/-- Modelled from the spec: `STSHProcess::setState` through the reference
`job.getProcess(pid)`: the first process with identifier `pid` gets run state
`st`. -/
def setStateIn (pid : Int) (st : STSHProcessState) :
    List STSHProcess → List STSHProcess
  | [] => []
  | q :: qs =>
    if q.pid == pid then { q with state := st } :: qs
    else q :: setStateIn pid st qs

/-- Modelled from the spec: `STSHProcess::setState` applied through the
references `joblist.getJobWithProcess(pid)` and `job.getProcess(pid)`: in the
first job that contains `pid`, the first process with that identifier gets
state `st`. -/
def setStateJobs (pid : Int) (st : STSHProcessState) :
    List STSHJob → List STSHJob
  | [] => []
  | j :: js =>
    if j.containsProcess pid then
      { j with processes := setStateIn pid st j.processes } :: js
    else j :: setStateJobs pid st js

/-- Modelled from the spec: see `setStateJobs`. -/
def STSHJobList.setProcessState (jl : STSHJobList) (pid : Int)
    (st : STSHProcessState) : STSHJobList :=
  ⟨setStateJobs pid st jl.jobs⟩

/-- Modelled from the spec: `STSHJobList::synchronize(job)` (§4.1): if every
process of the job is Terminated the job is removed from the registry (which
also clears a foreground designation it held); otherwise it stays in place. -/
def STSHJobList.synchronize (jl : STSHJobList) (num : Nat) : STSHJobList :=
  match jl.getJob num with
  | none => jl
  | some job =>
    if job.processes.all (fun q => q.state == STSHProcessState.kTerminated) then
      ⟨jl.jobs.filter (fun j => !(j.num == num))⟩
    else jl

/-! ## Pipeline descriptor -/

/-- Modelled from the spec: one stage of a pipeline (`stsh-parse.h` is missing):
program name and the argument tokens that precede the NULL sentinel. -/
structure command where
  command : String
  tokens : List String
  deriving DecidableEq, Repr

/-- Modelled from the spec: the pipeline descriptor of §6 (`stsh-parse.h` is
missing); an empty `input` or `output` means no redirection. -/
structure pipeline where
  commands : List Stsh.command
  input : String
  output : String
  background : Bool
  deriving DecidableEq, Repr

/-- The entry `tokens[i]` of a stage; `none` is the NULL pointer, which fills
the array from the end of the arguments on. -/
def command.token (c : Stsh.command) (i : Nat) : Option String :=
  c.tokens.get? i

/-! ## C library helpers -/

/-- The `isdigit` of `<ctype.h>` in the C locale. -/
def isdigit (c : Char) : Bool :=
  decide (48 ≤ c.toNat) && decide (c.toNat ≤ 57)

/-- The `isspace` of `<ctype.h>` in the C locale. -/
def isspace (c : Char) : Bool :=
  c.toNat == 32 || (decide (9 ≤ c.toNat) && decide (c.toNat ≤ 13))

/-- The value of the leading decimal digits, accumulated left to right. -/
def digitsValue : List Char → Nat → Nat
  | [], acc => acc
  | c :: cs, acc =>
    if isdigit c then digitsValue cs (10 * acc + (c.toNat - 48)) else acc

/-- The `strtol(s, NULL, 10)` of glibc: leading white space, an optional sign,
decimal digits; the value saturates at the range of `long`. -/
def strtol (s : List Char) : Int :=
  match s.dropWhile isspace with
  | [] => 0
  | c :: cs =>
    if c.toNat == 45 then max (-(digitsValue cs 0 : Int)) (-(2 ^ 63 : Int))
    else if c.toNat == 43 then min (digitsValue cs 0 : Int) (2 ^ 63 - 1)
    else min (digitsValue (c :: cs) 0 : Int) (2 ^ 63 - 1)

/-- Conversion of a `long` to `int`: reduction modulo `2 ^ 32` into
`[-2 ^ 31, 2 ^ 31)`. -/
def toInt32 (v : Int) : Int :=
  (v + 2 ^ 31) % 2 ^ 32 - 2 ^ 31

/-- The `atoi` of glibc, `(int) strtol(s, NULL, 10)`. -/
def atoi (s : String) : Int :=
  toInt32 (strtol s.data)

/-- Conversion of an `int` to `size_t`: reduction modulo `2 ^ 64`. -/
def toSizeT (v : Int) : Nat :=
  (v % 2 ^ 64).toNat

/-- Signal numbers of `<signal.h>` on Linux. -/
def SIGKILL : Int := 9
/-- Signal numbers of `<signal.h>` on Linux. -/
def SIGCHLD : Nat := 17
/-- Signal numbers of `<signal.h>` on Linux. -/
def SIGCONT : Int := 18
/-- Signal numbers of `<signal.h>` on Linux. -/
def SIGTSTP : Int := 20

/-! ## Builtins `slay`, `halt`, `cont` -/

/-- How a call of a shell function ends. -/
inductive Outcome where
  /-- The function returned. -/
  | returned
  /-- An `STSHException` with this message left the function. -/
  | thrown (what : String)
  /-- An array or vector was indexed outside its bounds, or a registry getter
  was called on an absent entry: the behaviour of the program is undefined
  from there on. -/
  | undefined
  /-- The function is suspended in `sigsuspend` and no further child state
  change arrives. -/
  | blocked
  /-- The process called `executeCommand`: its image is replaced by `execvp`,
  or it ends in `exit(0)` once the exception is reported. -/
  | replaced
  deriving DecidableEq, Repr

/-- The `checkZero` of `stsh.cc`: the token converted to zero; it is accepted
when its first character is a digit, and a usage exception is thrown (`.error`)
otherwise. -/
def checkZero (token : String) (name : String) : Except String Int :=
  if (token.data.head?.map isdigit).getD false then .ok 0
  else .error ("Usage: " ++ name ++ " <jobid> <index> | >pid>")

/-- The `findNumArgs` of `stsh.cc`: the number of arguments (1 or 2) of a
`slay`/`halt`/`cont` invocation, or the usage exception. -/
def findNumArgs (c : Stsh.command) (name : String) : Except String Int :=
  match c.token 0, c.token 2 with
  | none, _ => .error ("Usage: " ++ name ++ " <jobid> <index> | <pid>")
  | some _, some _ => .error ("Usage: " ++ name ++ " <jobid> <index> | <pid>")
  | some t0, none =>
    match (if atoi t0 == 0 then checkZero t0 name else .ok 0) with
    | .error e => .error e
    | .ok r0 =>
      if r0 == -1 then .ok (-1)
      else
        match c.token 1 with
        | none => .ok 1
        | some t1 =>
          match (if atoi t1 == 0 then checkZero t1 name else .ok 0) with
          | .error e => .error e
          | .ok r1 => if r1 == -1 then .ok (-1) else .ok 2

/-- The `getSig` of `stsh.cc`. -/
def getSig (name : String) : Int :=
  if name == "Slay" then SIGKILL
  else if name == "Halt" then SIGTSTP
  else if name == "Cont" then SIGCONT
  else 0

/-- What a builtin leaves behind: the registry, the `kill(pid, sig)` calls it
made in order, and how it ended. -/
structure Effect where
  joblist : STSHJobList
  kills : List (Int × Int)
  outcome : Outcome
  deriving DecidableEq, Repr

/-- The guard shared by both branches of `processCommand`: `halt` on a Stopped
process and `cont` on a Running process do nothing. -/
def alreadyThere (name : String) (st : STSHProcessState) : Bool :=
  (name == "Halt" && st == STSHProcessState.kStopped) ||
  (name == "Cont" && st == STSHProcessState.kRunning)

/-- The `processCommand` of `stsh.cc`, for the leading command of the pipeline
and `name` one of "Slay", "Halt", "Cont". -/
def processCommand (jl : STSHJobList) (p : pipeline) (name : String) : Effect :=
  match p.commands.head? with
  | none => ⟨jl, [], .undefined⟩
  | some c =>
    match findNumArgs c name with
    | .error e => ⟨jl, [], .thrown e⟩
    | .ok numArgs =>
      if numArgs == -1 then ⟨jl, [], .returned⟩
      else if numArgs == 1 then
        -- search by pid
        let tok0 := (c.token 0).getD ""
        let pid := atoi tok0
        if !jl.containsProcess pid then
          ⟨jl, [], .thrown ("No process with pid " ++ tok0 ++ ".")⟩
        else
          match (jl.getJobWithProcess pid).bind (fun j => j.getProcess pid) with
          | none => ⟨jl, [], .undefined⟩
          | some process =>
            if alreadyThere name process.state then ⟨jl, [], .returned⟩
            else ⟨jl, [(pid, getSig name)], .returned⟩
      else if numArgs == 2 then
        -- search by job number and index
        let tok0 := (c.token 0).getD ""
        let tok1 := (c.token 1).getD ""
        let jobNum := atoi tok0
        if !jl.containsJob (toSizeT jobNum) then
          ⟨jl, [], .thrown ("No job with id of " ++ tok0 ++ ".")⟩
        else
          match jl.getJob (toSizeT jobNum) with
          | none => ⟨jl, [], .undefined⟩
          | some job =>
            let processes := job.processes
            let index := toSizeT (atoi tok1)
            -- `processes.size()-1 > index` in `size_t` arithmetic
            if (processes.length + 2 ^ 64 - 1) % 2 ^ 64 > index then
              ⟨jl, [], .thrown ("Job " ++ tok0 ++
                " doesn't have a process at index " ++ tok1 ++ ".")⟩
            else
              match processes.get? index with
              | none => ⟨jl, [], .undefined⟩
              | some target =>
                if alreadyThere name target.state then ⟨jl, [], .returned⟩
                else ⟨jl, [(target.pid, getSig name)], .returned⟩
      else ⟨jl, [], .returned⟩

/-! ## Child state changes -/

/-- A wait status as `waitpid` stores it, seen through the four macros of
`<sys/wait.h>` the handler applies; `unset` is a value of the `int` for which
none of the four holds (the variable `status` is not initialised). -/
inductive WaitStatus where
  | exited (code : Nat)
  | signaled (sig : Nat)
  | stopped (sig : Nat)
  | continued
  | unset
  deriving DecidableEq, Repr

/-- The macro `WIFEXITED`. -/
def WIFEXITED : WaitStatus → Bool
  | .exited _ => true
  | _ => false

/-- The macro `WIFSIGNALED`. -/
def WIFSIGNALED : WaitStatus → Bool
  | .signaled _ => true
  | _ => false

/-- The macro `WIFCONTINUED`. -/
def WIFCONTINUED : WaitStatus → Bool
  | .continued => true
  | _ => false

/-- The macro `WIFSTOPPED`. -/
def WIFSTOPPED : WaitStatus → Bool
  | .stopped _ => true
  | _ => false

/-- The `updateJobList` of `stsh.cc`. -/
def updateJobList (jl : STSHJobList) (pid : Int) (state : STSHProcessState) :
    STSHJobList :=
  if !jl.containsProcess pid then jl
  else
    match jl.getJobWithProcess pid with
    | none => jl
    | some job =>
      if !job.containsProcess pid then jl
      else
        match job.getProcess pid with
        | none => jl
        | some process =>
          if process.state == state then jl
          else (jl.setProcessState pid state).synchronize job.num

/-- The call `waitpid(-1, &status, WUNTRACED | WCONTINUED | WNOHANG)` against
the kernel queue of child state changes not yet reaped: the oldest change is
taken off the queue and reported; with an empty queue the call returns 0 and
leaves `status` as it was. -/
def waitpid (pending : List (Int × WaitStatus)) (status : WaitStatus) :
    Int × WaitStatus × List (Int × WaitStatus) :=
  match pending with
  | [] => (0, status, [])
  | (pid, st) :: rest => (pid, st, rest)

/-- The `handleChild` of `stsh.cc`, the SIGCHLD handler: the registry and the
kernel queue after one invocation.  `status0` is the content of the
uninitialised local `status`. -/
def handleChild (jl : STSHJobList) (pending : List (Int × WaitStatus))
    (status0 : WaitStatus) : STSHJobList × List (Int × WaitStatus) :=
  let r := waitpid pending status0
  let pid := r.1
  let status := r.2.1
  if WIFEXITED status || WIFSIGNALED status then
    (updateJobList jl pid STSHProcessState.kTerminated, r.2.2)
  else if WIFCONTINUED status then
    (updateJobList jl pid STSHProcessState.kRunning, r.2.2)
  else if WIFSTOPPED status then
    (updateJobList jl pid STSHProcessState.kStopped, r.2.2)
  else (jl, r.2.2)

/-- The `handleInturrupt` of `stsh.cc`: the `kill` calls it makes. -/
def handleInturrupt (jl : STSHJobList) (sig : Int) : List (Int × Int) :=
  if !jl.hasForegroundJob then []
  else
    match jl.getForegroundJob with
    | none => []
    | some foregroundJob => foregroundJob.processes.map (fun q => (q.pid, sig))

/-! ## Foreground wait -/

/-- What `waitForForeground` leaves behind: the registry, the blocked signal
set of the shell, the kernel queue of unreaped changes, and how it ended. -/
structure Waited where
  joblist : STSHJobList
  mask : Finset Nat
  pending : List (Int × WaitStatus)
  outcome : Outcome

/-- One return of `sigsuspend(&oldset)`: the handler that ran during the
suspension.  The kernel keeps at most one SIGCHLD pending however many
children changed state, so the returns of `sigsuspend` are given on their own
and not derived from the queue of unreaped changes. -/
inductive Wake where
  /-- SIGCHLD was delivered and `handleChild` ran once; `arrived` are the child
  state changes that joined the kernel queue since the previous return (none
  when the signal was pending already). -/
  | sigchld (arrived : List (Int × WaitStatus))
  /-- SIGINT or SIGTSTP was delivered and `handleInturrupt` ran; it sends
  signals and leaves the registry and the queue as they are. -/
  | interrupt
  deriving DecidableEq, Repr

/-- The effect of one suspension in `sigsuspend(&oldset)` that ends with the
given handler run: the registry and the kernel queue afterwards.  When SIGCHLD
is a member of `oldset` it stays blocked during the suspension and
`handleChild` cannot run (`none`). -/
def suspend (oldset : Finset Nat) (status0 : WaitStatus) (jl : STSHJobList)
    (pending : List (Int × WaitStatus)) :
    Wake → Option (STSHJobList × List (Int × WaitStatus))
  | .sigchld arrived =>
    if SIGCHLD ∈ oldset then none
    else some (handleChild jl (pending ++ arrived) status0)
  | .interrupt => some (jl, pending)

/-- The `while(true)` loop of `waitForForeground`.  `mask` is the blocked set
while the loop runs and `oldset` the set `sigsuspend` installs; `wakes` are the
successive returns of `sigsuspend`, and when there is none left the shell stays
suspended. -/
def waitLoop (pid : Int) (mask oldset : Finset Nat) (status0 : WaitStatus) :
    List Wake → List (Int × WaitStatus) → STSHJobList → Waited
  | [], pending, jl =>
    match jl.getJobWithProcess pid with
    | none => ⟨jl, mask, pending, .undefined⟩
    | some _ =>
      if !jl.hasForegroundJob then ⟨jl, mask, pending, .returned⟩
      else ⟨jl, mask, pending, .blocked⟩
  | wake :: wakes, pending, jl =>
    match jl.getJobWithProcess pid with
    | none => ⟨jl, mask, pending, .undefined⟩
    | some job =>
      if !jl.hasForegroundJob then ⟨jl, mask, pending, .returned⟩
      else
        match suspend oldset status0 jl pending wake with
        | none => ⟨jl, mask, pending, .blocked⟩
        | some r =>
          if !r.1.hasForegroundJob then
            ⟨r.1, mask.erase SIGCHLD, r.2, .returned⟩
          else
            match r.1.getForegroundJob with
            | none => ⟨r.1, mask, r.2, .undefined⟩
            | some foregroundJob =>
              if job.num != foregroundJob.num then
                ⟨r.1, mask.erase SIGCHLD, r.2, .returned⟩
              else waitLoop pid mask oldset status0 wakes r.2 r.1

/-- The `waitForForeground` of `stsh.cc`, entered with blocked signal set
`mask`: `sigprocmask(SIG_SETMASK, &set, &oldset)` with `set = {SIGCHLD}`, the
early return when `pid` is in no job, the loop, and
`sigprocmask(SIG_UNBLOCK, &set, NULL)` after a `break`. -/
def waitForForeground (jl : STSHJobList) (mask : Finset Nat)
    (wakes : List Wake) (pending : List (Int × WaitStatus))
    (status0 : WaitStatus) (pid : Int) : Waited :=
  let set : Finset Nat := {SIGCHLD}
  let oldset := mask
  if !jl.containsProcess pid then ⟨jl, set, pending, .returned⟩
  else waitLoop pid set oldset status0 wakes pending jl

/-! ## Descriptor tables -/

/-- What an open descriptor refers to. -/
inductive FileObj where
  | terminal
  | file (path : String)
  | pipeRead (k : Nat)
  | pipeWrite (k : Nat)
  deriving DecidableEq, Repr

/-- The open descriptors of one process: descriptor number and what it refers
to, at most one entry per number. -/
abbrev FdTable := List (Int × FileObj)

/-- Whether the descriptor is open. -/
def FdTable.isOpen (t : FdTable) (fd : Int) : Bool :=
  t.any (fun e => e.1 == fd)

/-- What the descriptor refers to, if open. -/
def FdTable.lookup (t : FdTable) (fd : Int) : Option FileObj :=
  (t.find? (fun e => e.1 == fd)).map (fun e => e.2)

/-- The lowest descriptor number that is not open. -/
def FdTable.lowestFree (t : FdTable) : Int :=
  Int.ofNat (((List.range (t.length + 1)).find?
    (fun n => !t.isOpen (Int.ofNat n))).getD t.length)

/-- The call `close(fd)`; on a descriptor that is not open it fails with EBADF
and changes nothing. -/
def FdTable.close (t : FdTable) (fd : Int) : FdTable :=
  t.filter (fun e => !(e.1 == fd))

/-- The call `dup2(oldfd, newfd)`; with `oldfd` not open it fails with EBADF and
changes nothing. -/
def FdTable.dup2 (t : FdTable) (oldfd newfd : Int) : FdTable :=
  match t.lookup oldfd with
  | none => t
  | some o => if oldfd == newfd then t else (newfd, o) :: t.close newfd

/-- The call `pipe(fds)` for pipe number `k`: the two lowest free descriptors
become its read and write end. -/
def FdTable.pipe (t : FdTable) (k : Nat) : Int × Int × FdTable :=
  let r := t.lowestFree
  let t1 : FdTable := (r, FileObj.pipeRead k) :: t
  let w := FdTable.lowestFree t1
  (r, w, (w, FileObj.pipeWrite k) :: t1)

/-- The pipe ends a process holds open: descriptor number and pipe end. -/
def FdTable.pipeEnds (t : FdTable) : FdTable :=
  t.filter (fun e =>
    match e.2 with
    | .pipeRead _ => true
    | .pipeWrite _ => true
    | _ => false)

/-! ## Pipeline launch -/

/-- The calls the shell makes in `createJob`, in order. -/
inductive Syscall where
  | openCall (path : String) (result : Int)
  | pipeCall (readFd writeFd : Int)
  | forkCall (pid : Int)
  | closeCall (fd : Int)
  | setpgidCall (pid pgid : Int)
  | tcsetpgrpCall (pgid : Int)
  | waitForForegroundCall (pid : Int)
  | printBgSummaryLine (num : Nat) (pids : List Int)
  deriving DecidableEq, Repr

/-- How `tcsetpgrp` answers. -/
inductive TcResult where
  | ok
  | enotty
  | failed
  deriving DecidableEq, Repr

/-- What `createJob` finds outside the shell's own variables. -/
structure World where
  /-- The open descriptors of the shell. -/
  fds : FdTable
  /-- Whether `open` succeeds on a path. -/
  canOpen : String → Bool
  /-- The value the `i`-th `fork` returns in the shell: the pid of the new
  child, or -1. -/
  forkPid : Nat → Int
  /-- The process group `addJob` allocates. -/
  groupID : Int
  /-- The value of `getpid()` in the shell. -/
  shellPid : Int
  /-- The content of the row `fdsArr[i]` before anything is stored in it. -/
  stackRows : Nat → Int × Int
  /-- The content of `redirect` before anything is stored in it. -/
  stackRedirect : Int × Int
  /-- How `tcsetpgrp` answers. -/
  tcsetpgrp : TcResult
  /-- The process group that owns the terminal. -/
  terminalOwner : Int
  /-- The blocked signal set of the shell. -/
  mask : Finset Nat
  /-- The kernel queue of child state changes that are not yet reaped. -/
  pending : List (Int × WaitStatus)
  /-- The returns of `sigsuspend` during the foreground wait, in order. -/
  wakes : List Wake
  /-- The content of the local `status` of `handleChild` before `waitpid`. -/
  status0 : WaitStatus

/-- The state of the shell while `createJob` runs, and what it leaves behind. -/
structure Launch where
  joblist : STSHJobList
  /-- The open descriptors of the shell. -/
  fds : FdTable
  /-- The pipe table `int fdsArr[p.commands.size()][2]`. -/
  fdsArr : List (Int × Int)
  /-- The array `int redirect[2]`. -/
  redirect : Int × Int
  /-- The calls of the shell so far. -/
  trace : List Syscall
  /-- The row indices of `fdsArr` used so far, by the shell and by the children
  up to their `execvp`. -/
  rows : List Nat
  /-- For each child the stage it runs and the descriptors it holds when it
  calls `execvp`. -/
  children : List (Nat × FdTable)
  terminalOwner : Int
  mask : Finset Nat
  pending : List (Int × WaitStatus)
  /-- While `createJob` runs this is `returned`; anything else ends it. -/
  outcome : Outcome

/-- Sequencing: the next statement runs only while nothing has ended the
function. -/
def Launch.andThen (s : Launch) (f : Launch → Launch) : Launch :=
  if s.outcome = Outcome.returned then f s else s

/-- The statement `close(fd)` in the shell. -/
def Launch.close (s : Launch) (fd : Int) : Launch :=
  { s with fds := s.fds.close fd, trace := s.trace ++ [Syscall.closeCall fd] }

/-- The use of the row `fdsArr[idx]` in the shell: outside the bounds of the
array the behaviour is undefined. -/
def Launch.withRow (s : Launch) (idx : Nat) (k : Int × Int → Launch → Launch) :
    Launch :=
  match s.fdsArr.get? idx with
  | none => { s with rows := s.rows ++ [idx], outcome := Outcome.undefined }
  | some row => k row { s with rows := s.rows ++ [idx] }

/-- The value `i - 1` of type `size_t`. -/
def predSizeT (i : Nat) : Nat :=
  (i + 2 ^ 64 - 1) % 2 ^ 64

/-- The row indices of `fdsArr` the child of stage `i` uses. -/
def childRows (pipeIn pipeOut : Bool) (i : Nat) : List Nat :=
  (if pipeOut then [i] else []) ++ (if pipeIn then [predSizeT i] else [])

/-- The branch `if(pid == 0)` of `createJob` for stage `i`, up to the call of
`execvp` in `executeCommand`: the descriptors the process then holds, or `none`
when a row outside `fdsArr` is used. -/
def childWire (p : pipeline) (pipeIn pipeOut : Bool) (i : Nat)
    (fdsArr : List (Int × Int)) (redirect : Int × Int) (t : FdTable) :
    Option FdTable :=
  let afterOut : Option FdTable :=
    if pipeOut then
      (fdsArr.get? i).map (fun row =>
        ((t.close row.1).dup2 row.2 1).close row.2)
    else if !p.output.isEmpty then
      some ((t.dup2 redirect.2 1).close redirect.2)
    else some t
  afterOut.bind (fun t1 =>
    if pipeIn then
      (fdsArr.get? (predSizeT i)).map (fun row =>
        ((t1.close row.2).dup2 row.1 0).close row.1)
    else if !p.input.isEmpty then
      some ((t1.dup2 redirect.1 0).close redirect.1)
    else some t1)

/-- The statements `if(pipeOut){ pipe(fds); fdsArr[i][0] = fds[0];
fdsArr[i][1] = fds[1]; }` of stage `i`. -/
def makePipe (s : Launch) (i : Nat) (pipeOut : Bool) : Launch :=
  if pipeOut then
    let r := s.fds.pipe i
    { s with
      fds := r.2.2
      fdsArr := s.fdsArr.set i (r.1, r.2.1)
      rows := s.rows ++ [i]
      trace := s.trace ++ [Syscall.pipeCall r.1 r.2.1] }
  else s

/-- The statement `pid_t pid = fork()` of stage `i` and the branch
`if(pid == 0)`.  When `fork` returns a pid the new process runs that branch
and the descriptors it holds at `execvp` are recorded; a process in which
`fork` returns 0 runs the branch itself and does not come back from
`executeCommand`. -/
def forkChild (w : World) (p : pipeline) (s : Launch) (i : Nat)
    (pipeIn pipeOut : Bool) : Launch :=
  let pid := w.forkPid i
  let s2 : Launch := { s with trace := s.trace ++ [Syscall.forkCall pid] }
  if pid == 0 then
    match childWire p pipeIn pipeOut i s2.fdsArr s2.redirect s2.fds with
    | none =>
      { s2 with rows := s2.rows ++ childRows pipeIn pipeOut i
                outcome := Outcome.undefined }
    | some t =>
      { s2 with fds := t, rows := s2.rows ++ childRows pipeIn pipeOut i
                outcome := Outcome.replaced }
  else if 0 < pid then
    match childWire p pipeIn pipeOut i s2.fdsArr s2.redirect s2.fds with
    | none => { s2 with rows := s2.rows ++ childRows pipeIn pipeOut i }
    | some t =>
      { s2 with rows := s2.rows ++ childRows pipeIn pipeOut i
                children := s2.children ++ [(i, t)] }
  else s2

/-- The statements of stage `i` that follow the branch of the child, run by the
shell: the three conditional groups of `close` calls, `setpgid` and
`job.addProcess`, for the job with handle `num`. -/
def parentAfterFork (w : World) (p : pipeline) (num : Nat) (i : Nat)
    (pipeIn pipeOut : Bool) (s : Launch) : Launch :=
  let s4 : Launch :=
    if 1 < i then
      s.withRow (predSizeT i) (fun row s =>
        (s.close row.1).withRow (predSizeT i) (fun row s => s.close row.2))
    else s
  let s5 : Launch :=
    s4.andThen (fun s =>
      if !pipeIn then s.withRow i (fun row s => s.close row.2) else s)
  let s6 : Launch :=
    s5.andThen (fun s =>
      if !pipeOut then s.withRow (predSizeT i) (fun row s => s.close row.1)
      else s)
  s6.andThen (fun s =>
    match p.commands.get? i with
    | none => { s with outcome := Outcome.undefined }
    | some c =>
      { s with
        trace := s.trace ++ [Syscall.setpgidCall (w.forkPid i) w.groupID]
        joblist := s.joblist.addProcess num
          ⟨w.forkPid i, c.command, STSHProcessState.kRunning⟩ })

/-- One iteration of the `for` loop of `createJob` over the stages, for the job
with handle `num`. -/
def spawnStage (w : World) (p : pipeline) (num : Nat) (s : Launch) (i : Nat) :
    Launch :=
  s.andThen (fun s =>
    let pipeIn : Bool := !(i == 0)
    let pipeOut : Bool := !(i == predSizeT p.commands.length)
    (forkChild w p (makePipe s i pipeOut) i pipeIn pipeOut).andThen
      (parentAfterFork w p num i pipeIn pipeOut))

/-- One iteration of the loop "close pipes in parent" of `createJob`. -/
def closeRow (s : Launch) (i : Nat) : Launch :=
  s.andThen (fun s =>
    s.withRow i (fun row s =>
      (s.close row.1).withRow i (fun row s => s.close row.2)))

/-- The `printBgSummary` of `stsh.cc`: the line `[num] pid pid ...` it writes
to `cout`. -/
def printBgSummary (job : STSHJob) : Syscall :=
  Syscall.printBgSummaryLine job.num (job.processes.map (fun q => q.pid))

/-- The statements of `createJob` after the two loops: `tcsetpgrp`, then the
foreground wait or the background summary. -/
def finishJob (w : World) (p : pipeline) (num : Nat) (s : Launch) : Launch :=
  s.andThen (fun s =>
    let s1 : Launch :=
      { s with
        trace := s.trace ++ [Syscall.tcsetpgrpCall w.groupID]
        terminalOwner :=
          if w.tcsetpgrp = TcResult.ok then w.groupID else s.terminalOwner }
    if w.tcsetpgrp = TcResult.failed then
      { s1 with outcome :=
          Outcome.thrown "Error handing terminal control to child process." }
    else if !p.background then
      let r := waitForForeground s1.joblist s1.mask w.wakes s1.pending w.status0
        w.groupID
      let s2 : Launch :=
        { s1 with
          trace := s1.trace ++ [Syscall.waitForForegroundCall w.groupID]
          joblist := r.joblist, mask := r.mask, pending := r.pending
          outcome := r.outcome }
      s2.andThen (fun s =>
        { s with
          trace := s.trace ++ [Syscall.tcsetpgrpCall w.shellPid]
          terminalOwner :=
            if w.tcsetpgrp = TcResult.ok then w.shellPid else s.terminalOwner })
    else
      match s1.joblist.getJob num with
      | none => { s1 with outcome := Outcome.undefined }
      | some job =>
        { s1 with trace := s1.trace ++ [printBgSummary job] })

/-- The statements of `createJob` before the loop over the stages: `addJob`,
the declaration of `fdsArr` and `redirect`, and the two `open` calls. -/
def openRedirects (w : World) (jl : STSHJobList) (p : pipeline) : Launch × Nat :=
  let a := jl.addJob
    (if p.background then STSHJobState.kBackground else STSHJobState.kForeground)
    w.groupID
  let s0 : Launch :=
    { joblist := a.1, fds := w.fds
      fdsArr := (List.range p.commands.length).map w.stackRows
      redirect := w.stackRedirect, trace := [], rows := [], children := []
      terminalOwner := w.terminalOwner, mask := w.mask, pending := w.pending
      outcome := Outcome.returned }
  let s1 : Launch :=
    if !p.input.isEmpty then
      if w.canOpen p.input then
        let fd := s0.fds.lowestFree
        { s0 with
          fds := (fd, FileObj.file p.input) :: s0.fds
          redirect := (fd, s0.redirect.2)
          trace := s0.trace ++ [Syscall.openCall p.input fd] }
      else
        { s0 with
          redirect := (-1, s0.redirect.2)
          trace := s0.trace ++ [Syscall.openCall p.input (-1)] }
    else s0
  let s2 : Launch :=
    if !p.output.isEmpty then
      if w.canOpen p.output then
        let fd := s1.fds.lowestFree
        { s1 with
          fds := (fd, FileObj.file p.output) :: s1.fds
          redirect := (s1.redirect.1, fd)
          trace := s1.trace ++ [Syscall.openCall p.output fd] }
      else
        { s1 with
          redirect := (s1.redirect.1, -1)
          trace := s1.trace ++ [Syscall.openCall p.output (-1)] }
    else s1
  (s2, a.2)

/-- The `createJob` of `stsh.cc`, run by the shell on registry `jl`. -/
def createJob (w : World) (jl : STSHJobList) (p : pipeline) : Launch :=
  let o := openRedirects w jl p
  let stages := List.range p.commands.length
  let spawned := stages.foldl (spawnStage w p o.2) o.1
  let closed := stages.foldl closeRow spawned
  finishJob w p o.2 closed


/-! ## Concrete inputs -/

/-- The invocation `<builtin> args...` as a pipeline descriptor. -/
def builtinLine (name : String) (args : List String) : pipeline :=
  ⟨[⟨name, args⟩], "", "", false⟩

/-- A registry with job 1, one running process 100. -/
def oneProcessRegistry : STSHJobList :=
  ⟨[⟨1, 100, .kBackground, [⟨100, "sleep", .kRunning⟩]⟩]⟩

/-- A registry with job 1, a two-stage pipeline of running processes 100 and
101. -/
def twoProcessRegistry : STSHJobList :=
  ⟨[⟨1, 100, .kBackground, [⟨100, "cat", .kRunning⟩, ⟨101, "wc", .kRunning⟩]⟩]⟩

/-- A registry with two background jobs of one running process each. -/
def twoJobRegistry : STSHJobList :=
  ⟨[⟨1, 10, .kBackground, [⟨10, "a", .kRunning⟩]⟩,
    ⟨2, 11, .kBackground, [⟨11, "b", .kRunning⟩]⟩]⟩

/-- A registry with job 1, a stopped process 100 followed by a running process
101. -/
def stoppedRegistry : STSHJobList :=
  ⟨[⟨1, 100, .kBackground, [⟨100, "cat", .kStopped⟩, ⟨101, "wc", .kRunning⟩]⟩]⟩

/-- An interactive shell with pid 50 that owns the terminal, descriptors 0, 1
and 2 open on it, no signal blocked; children get the pids 100, 101, ...; no
path can be opened. -/
def interactiveWorld : World where
  fds := [(0, .terminal), (1, .terminal), (2, .terminal)]
  canOpen := fun _ => false
  forkPid := fun i => 100 + (i : Int)
  groupID := 100
  shellPid := 50
  stackRows := fun _ => (-7, -8)
  stackRedirect := (-5, -6)
  tcsetpgrp := .ok
  terminalOwner := 50
  mask := ∅
  pending := []
  wakes := []
  status0 := .unset

/-- The pipeline of the given programs, without arguments or redirection. -/
def plainPipeline (programs : List String) (background : Bool) : pipeline :=
  ⟨programs.map (fun c => ⟨c, []⟩), "", "", background⟩

/-- C1 (defect in the code): `slay 1 5` on a job with a single process.  The
index is past the end of the process list, yet the bound test
`processes.size()-1 > index` is false, no lookup error is thrown and the vector
is indexed outside its bounds. -/
theorem processCommand_index_past_end_unreported :
    processCommand oneProcessRegistry (builtinLine "slay" ["1", "5"]) "Slay"
      = ⟨oneProcessRegistry, [], Outcome.undefined⟩ := by
  decide

/-- C2 (defect in the code): `slay 1 0` on a job with the two processes 100 and
101.  Index 0 is a valid position, yet the bound test throws the lookup error
and no signal reaches process 100. -/
theorem processCommand_valid_index_rejected :
    processCommand twoProcessRegistry (builtinLine "slay" ["1", "0"]) "Slay"
      = ⟨twoProcessRegistry, [],
          Outcome.thrown "Job 1 doesn't have a process at index 0."⟩ := by
  decide

theorem checkZero_ok (t name : String) (r : Int) (h : checkZero t name = .ok r) : r = 0 := by
  unfold checkZero at h
  split at h
  · cases h; rfl
  · cases h

theorem argCheck_ok (t name : String) (r : Int)
    (h : (if atoi t == 0 then checkZero t name else Except.ok 0) = .ok r) : r = 0 := by
  split at h
  · exact checkZero_ok _ _ _ h
  · cases h; rfl

theorem findNumArgs_ok (c : Stsh.command) (name : String) (n : Int)
    (h : findNumArgs c name = .ok n) :
    (n = 1 ∧ c.token 1 = none) ∨ (n = 2 ∧ ∃ t1, c.token 1 = some t1) := by
  unfold findNumArgs at h
  cases h0 : c.token 0 with
  | none => simp [h0] at h
  | some t0 =>
    cases h2 : c.token 2 with
    | some t2 => simp [h0, h2] at h
    | none =>
      simp only [h0, h2] at h
      generalize he0 : (if atoi t0 == 0 then checkZero t0 name else Except.ok 0) = e0 at h
      cases e0 with
      | error e => cases h
      | ok r0 =>
        have hr := argCheck_ok _ _ _ he0
        subst hr
        cases h1 : c.token 1 with
        | none =>
          simp [h1] at h
          exact Or.inl ⟨h.symm, rfl⟩
        | some t1 =>
          simp only [h1] at h
          generalize he1 : (if atoi t1 == 0 then checkZero t1 name else Except.ok 0) = e1 at h
          cases e1 with
          | error e => simp at h
          | ok r1 =>
            have hr := argCheck_ok _ _ _ he1
            subst hr
            simp at h
            exact Or.inr ⟨h.symm, t1, rfl⟩

theorem processCommand_joblist (jl : STSHJobList) (p : pipeline) (name : String) :
    (processCommand jl p name).joblist = jl := by
  simp only [processCommand]
  repeat' split
  all_goals rfl

theorem alreadyThere_of (name : String) (st : STSHProcessState)
    (hst : (name = "Halt" ∧ st = STSHProcessState.kStopped) ∨
      (name = "Cont" ∧ st = STSHProcessState.kRunning)) :
    alreadyThere name st = true := by
  rcases hst with ⟨rfl, rfl⟩ | ⟨rfl, rfl⟩ <;> decide

/-- C3: for a target process resolved by pid (one argument) or by job handle and
index (two arguments), `halt` when the process is Stopped and `cont` when it is
Running send no signal and leave the registry as it was. -/
theorem processCommand_halt_cont_noop (jl : STSHJobList) (p : pipeline)
    (c : Stsh.command) (name : String) (target : STSHProcess)
    (hc : p.commands.head? = some c)
    (hres :
      (∃ a job, c.tokens = [a] ∧ jl.getJobWithProcess (atoi a) = some job ∧
        job.getProcess (atoi a) = some target) ∨
      (∃ a b job, c.tokens = [a, b] ∧ jl.getJob (toSizeT (atoi a)) = some job ∧
        job.processes.get? (toSizeT (atoi b)) = some target))
    (hst : (name = "Halt" ∧ target.state = STSHProcessState.kStopped) ∨
      (name = "Cont" ∧ target.state = STSHProcessState.kRunning)) :
    (processCommand jl p name).kills = [] ∧
    (processCommand jl p name).joblist = jl := by
  refine ⟨?_, processCommand_joblist jl p name⟩
  have hat := alreadyThere_of name target.state hst
  simp only [processCommand]
  rw [hc]
  simp only
  cases hf : findNumArgs c name with
  | error e => rfl
  | ok n =>
    rcases findNumArgs_ok c name n hf with ⟨rfl, h1⟩ | ⟨rfl, t1, h1⟩
    · rcases hres with ⟨a, job, ht, hj, hp⟩ | ⟨a, b, job, ht, _, _⟩
      · simp [command.token, ht, hj, hp, hat]
        split <;> rfl
      · simp [command.token, ht] at h1
    · rcases hres with ⟨a, job, ht, _, _⟩ | ⟨a, b, job, ht, hj, hp⟩
      · simp [command.token, ht] at h1
      · have hp2 : job.processes[toSizeT (atoi b)]? = some target := by
          simpa using hp
        simp [command.token, ht, hj, hp2, hat]
        repeat' split
        all_goals rfl

/-- C3 at a concrete input: `halt 100` when process 100 is already stopped. -/
theorem processCommand_halt_cont_noop_witness :
    (processCommand stoppedRegistry (builtinLine "halt" ["100"]) "Halt").kills = [] ∧
    (processCommand stoppedRegistry (builtinLine "halt" ["100"]) "Halt").joblist
      = stoppedRegistry :=
  processCommand_halt_cont_noop stoppedRegistry (builtinLine "halt" ["100"])
    ⟨"halt", ["100"]⟩ "Halt" ⟨100, "cat", .kStopped⟩ rfl
    (Or.inl ⟨"100", ⟨1, 100, .kBackground,
      [⟨100, "cat", .kStopped⟩, ⟨101, "wc", .kRunning⟩]⟩, rfl, by decide, by decide⟩)
    (Or.inl ⟨rfl, rfl⟩)

/-! ## Child state changes: theorems -/

/-- C7 (defect in the code): one invocation of `handleChild` takes exactly one
change off the queue of pending child state changes, whatever the registry.
With two children terminated before the handler runs, it reaps the first
only: the second change is still pending and its job is still registered with
a running process. -/
theorem handleChild_reaps_one_change :
    (∀ (jl : STSHJobList) (change : Int × WaitStatus)
        (rest : List (Int × WaitStatus)) (status0 : WaitStatus),
      (handleChild jl (change :: rest) status0).2 = rest) ∧
    handleChild twoJobRegistry [(10, .exited 0), (11, .exited 0)] .unset
      = (⟨[⟨2, 11, .kBackground, [⟨11, "b", .kRunning⟩]⟩]⟩, [(11, .exited 0)]) := by
  refine ⟨fun jl change rest status0 => ?_, by decide⟩
  simp only [handleChild, waitpid]
  repeat' split
  all_goals rfl

/-- C6 (defect in the code): `waitForForeground` entered with no signal blocked
and a pid that is in no job returns early with SIGCHLD blocked: the blocked set
is not the one in effect on entry. -/
theorem waitForForeground_early_return_keeps_sigchld_blocked :
    (waitForForeground ⟨[]⟩ ∅ [] [] .unset 5).outcome = Outcome.returned ∧
    (waitForForeground ⟨[]⟩ ∅ [] [] .unset 5).mask = {SIGCHLD} ∧
    (waitForForeground ⟨[]⟩ ∅ [] [] .unset 5).mask ≠ ∅ := by
  decide

/-! ## Pipeline launch: theorems -/

/-- C4 (defect in the code): the background pipeline `a | b &`.  `createJob`
calls `tcsetpgrp` for the group of the new job all the same, before it prints
the summary, and the terminal is left with that group, not with the shell. -/
theorem createJob_background_takes_terminal :
    (createJob interactiveWorld ⟨[]⟩ (plainPipeline ["a", "b"] true)).outcome
      = Outcome.returned ∧
    (createJob interactiveWorld ⟨[]⟩ (plainPipeline ["a", "b"] true)).trace.reverse.take 2
      = [Syscall.printBgSummaryLine 1 [100, 101], Syscall.tcsetpgrpCall 100] ∧
    (createJob interactiveWorld ⟨[]⟩ (plainPipeline ["a", "b"] true)).terminalOwner
      = 100 ∧
    interactiveWorld.shellPid = 50 := by
  decide

/-- C8 (defect in the code): the pipeline `a | b | c` without redirection.  When
the third stage calls `execvp` it still holds descriptor 3, the read end of the
pipe between `a` and `b`. -/
theorem createJob_third_stage_keeps_first_pipe :
    (createJob interactiveWorld ⟨[]⟩ (plainPipeline ["a", "b", "c"] true)).children.map
        (fun c => (c.1, FdTable.pipeEnds c.2))
      = [(0, [(1, FileObj.pipeWrite 0)]),
         (1, [(0, FileObj.pipeRead 0), (1, FileObj.pipeWrite 1)]),
         (2, [(0, FileObj.pipeRead 1), (3, FileObj.pipeRead 0)])] := by
  decide

/-- C10 (defect in the code): the single-command pipeline `a`.  After the fork
the shell evaluates `fdsArr[i-1][0]` with `i = 0`: the row index is
`2 ^ 64 - 1`, outside the one-row table. -/
theorem createJob_single_command_row_out_of_range :
    (createJob interactiveWorld ⟨[]⟩ (plainPipeline ["a"] false)).rows
      = [0, 2 ^ 64 - 1] ∧
    (createJob interactiveWorld ⟨[]⟩ (plainPipeline ["a"] false)).fdsArr.length = 1 ∧
    (createJob interactiveWorld ⟨[]⟩ (plainPipeline ["a"] false)).outcome
      = Outcome.undefined := by
  decide


end Stsh
